import Mathlib

/-!
Verification of the inventory/demand dashboard analytics layer.

The definitions below are a shallow embedding of the pure computation layer of
the dashboard application (file src/app.py): coverage (days-of-supply)
computation, risk-level and bucket classification, seasonal-naive forecasting,
the MAPE backtest, the forecast stockout-date walk, the reorder-quantity
policy, and the priority score.  Quantities and averages are embedded as exact
rationals; SQL NULL / Python None become Option.  Dates are embedded as day
ordinals (integers), with a Gregorian-calendar conversion used to state
concrete-date examples.
-/

/-- Round a rational to the nearest integer, ties to the even integer.
This is the semantics of the Python builtin round (and of pandas Series.round)
on exactly representable ties, used by compute_dos and target_stock. -/
def roundHalfEven (q : ℚ) : ℤ :=
  if q - ⌊q⌋ < 1/2 then ⌊q⌋
  else if (1:ℚ)/2 < q - ⌊q⌋ then ⌊q⌋ + 1
  else if ⌊q⌋ % 2 = 0 then ⌊q⌋ else ⌊q⌋ + 1

/-- Round to one decimal place with ties to even: the semantics of Python
round(x, 1) as used in compute_dos in src/app.py. -/
def pyRound1 (q : ℚ) : ℚ := (roundHalfEven (q * 10) : ℚ) / 10

/-- Round a rational to the nearest integer, ties away from zero.  This is the
semantics of DuckDB ROUND on DOUBLE values (std round of value * 10). -/
def roundHalfAway (q : ℚ) : ℤ :=
  if 0 ≤ q then ⌊q + 1/2⌋ else ⌈q - 1/2⌉

/-- Round to one decimal place with ties away from zero: DuckDB ROUND(x, 1)
as used in the SQL coverage computations in src/app.py. -/
def sqlRound1 (q : ℚ) : ℚ := (roundHalfAway (q * 10) : ℚ) / 10

/-- Embedding of compute_dos from src/app.py (lines 148-153):
returns None when avg_daily_demand is missing or zero, otherwise
round(onhand / avg, 1) with Python rounding; a missing onhand counts as 0. -/
def compute_dos (onhand_qty : Option ℚ) (avg_daily_demand : Option ℚ) : Option ℚ :=
  match avg_daily_demand with
  | none => none
  | some a => if a = 0 then none else some (pyRound1 (onhand_qty.getD 0 / a))

/-- Embedding of the sku_dos CASE expression in exec_kpi_sql (src/app.py lines
536-547): COALESCE missing values to 0; when the N-day demand is positive,
ROUND(onhand * N / demand, 1) with DuckDB rounding, else NULL. -/
def kpi_coverage_days (onhand_qty demand_Nd : Option ℚ) (dos_basis_days : ℕ) : Option ℚ :=
  let o := onhand_qty.getD 0
  let d := demand_Nd.getD 0
  if 0 < d then some (sqlRound1 (o * dos_basis_days / d)) else none

/-- The coverage rule exactly as the claim words it (half-up rounding to one
decimal place), stated for comparison with the code's compute_dos. -/
def coverage_halfUp (onhand window_demand : ℚ) (window_days : ℕ) : Option ℚ :=
  if window_demand = 0 then none
  else some ((⌊onhand * window_days / window_demand * 10 + 1/2⌋ : ℚ) / 10)

theorem roundHalfEven_congr (q : ℚ) (f : ℤ) (hf : ⌊q⌋ = f) :
    roundHalfEven q =
      if q - f < 1/2 then f
      else if (1:ℚ)/2 < q - f then f + 1
      else if f % 2 = 0 then f else f + 1 := by
  simp [roundHalfEven, hf]

/-- C1 counterexample: at onhand = 1, window_demand = 56, window_days = 14 the
quotient is 0.25; half-up rounding (the claim) gives 0.3, but compute_dos
(Python round, ties to even) gives 0.2. -/
theorem compute_dos_not_halfUp :
    compute_dos (some 1) (some ((56 : ℚ) / 14)) = some (1/5) ∧
    coverage_halfUp 1 56 14 = some (3/10) ∧
    compute_dos (some 1) (some ((56 : ℚ) / 14)) ≠ coverage_halfUp 1 56 14 := by
  have h1 : ((56 : ℚ) / 14) = 4 := by norm_num
  have hfloor : ⌊(1 : ℚ) / 4 * 10⌋ = 2 := by
    rw [Int.floor_eq_iff]; norm_num
  have hcode : compute_dos (some 1) (some ((56 : ℚ) / 14)) = some (1/5) := by
    rw [h1]
    simp only [compute_dos, Option.getD_some]
    rw [if_neg (by norm_num)]
    rw [pyRound1, roundHalfEven_congr _ 2 hfloor]
    rw [if_neg (by norm_num), if_neg (by norm_num), if_pos (by norm_num)]
    norm_num
  have hspec : coverage_halfUp 1 56 14 = some (3/10) := by
    rw [coverage_halfUp, if_neg (by norm_num)]
    have : (1 : ℚ) * (14 : ℕ) / 56 * 10 + 1/2 = 3 := by norm_num
    rw [this]
    norm_num
  refine ⟨hcode, hspec, ?_⟩
  rw [hcode, hspec]
  norm_num

/-- C1 (amended): coverage is undefined exactly when the window demand is 0;
otherwise compute_dos returns onhand * window_days / window_demand rounded to
one decimal with ties to even (Python round), while the SQL KPI path rounds
ties away from zero; zero stock with positive demand gives the defined value
0.0. -/
theorem coverage_dos_spec (o d w : ℕ) (hw : 0 < w) :
    (compute_dos (some o) (some ((d : ℚ) / w)) = none ↔ d = 0) ∧
    (d ≠ 0 → compute_dos (some o) (some ((d : ℚ) / w)) =
        some ((roundHalfEven ((o : ℚ) * w / d * 10) : ℚ) / 10)) ∧
    (kpi_coverage_days (some o) (some d) w = none ↔ d = 0) ∧
    (d ≠ 0 → kpi_coverage_days (some o) (some d) w =
        some ((roundHalfAway ((o : ℚ) * w / d * 10) : ℚ) / 10)) ∧
    (o = 0 → d ≠ 0 → compute_dos (some o) (some ((d : ℚ) / w)) = some 0) := by
  have hwq : ((w : ℚ)) ≠ 0 := by
    have : (0 : ℚ) < w := by exact_mod_cast hw
    exact ne_of_gt this
  refine ⟨?_, ?_, ?_, ?_, ?_⟩
  · by_cases hd : d = 0
    · subst hd; simp [compute_dos]
    · have : ((d : ℚ) / w) ≠ 0 := by
        apply div_ne_zero _ hwq
        exact_mod_cast hd
      simp [compute_dos, this, hd]
  · intro hd
    have hdq : (d : ℚ) ≠ 0 := by exact_mod_cast hd
    have hne : ((d : ℚ) / w) ≠ 0 := div_ne_zero hdq hwq
    simp only [compute_dos, hne, if_false, Option.getD_some]
    rw [div_div_eq_mul_div]
    rfl
  · by_cases hd : d = 0
    · subst hd; simp [kpi_coverage_days]
    · have : (0 : ℚ) < d := by exact_mod_cast Nat.pos_of_ne_zero hd
      simp [kpi_coverage_days, this, hd]
  · intro hd
    have : (0 : ℚ) < d := by exact_mod_cast Nat.pos_of_ne_zero hd
    simp only [kpi_coverage_days, Option.getD_some, this, if_true]
    rfl
  · intro ho hd
    subst ho
    have hdq : (d : ℚ) ≠ 0 := by exact_mod_cast hd
    have hne : ((d : ℚ) / w) ≠ 0 := div_ne_zero hdq hwq
    simp only [compute_dos, hne, if_false, Option.getD_some, Nat.cast_zero, zero_div]
    rw [pyRound1, roundHalfEven_congr _ 0 (by norm_num)]
    norm_num

/-- C1 witness: the amended theorem at the claim's own numeric example
(onhand 280, window demand 140, window days 14), whose value is 28.0. -/
theorem coverage_dos_spec_witness :
    compute_dos (some 280) (some ((140 : ℚ) / 14)) =
      some ((roundHalfEven ((280 : ℚ) * 14 / 140 * 10) : ℚ) / 10) ∧
    compute_dos (some 280) (some ((140 : ℚ) / 14)) = some 28 := by
  have happ := (coverage_dos_spec 280 140 14 (by norm_num)).2.1 (by norm_num)
  have happ' : compute_dos (some 280) (some ((140 : ℚ) / 14)) =
      some ((roundHalfEven ((280 : ℚ) * 14 / 140 * 10) : ℚ) / 10) := by
    exact_mod_cast happ
  refine ⟨happ', ?_⟩
  rw [happ']
  have h : (280 : ℚ) * 14 / 140 * 10 = 280 := by norm_num
  rw [h, roundHalfEven_congr _ 280 (by rw [Int.floor_eq_iff]; norm_num)]
  norm_num

/-- Risk levels produced by assign_risk_level in src/app.py. -/
inductive RiskLevel
  | Critical
  | High
  | Medium
  | Low
deriving DecidableEq

/-- Embedding of assign_risk_level from src/app.py (lines 1213-1222):
missing coverage is Low; then strict thresholds at 3, 7 and 14 days. -/
def assign_risk_level (days : Option ℚ) : RiskLevel :=
  match days with
  | none => RiskLevel.Low
  | some d =>
    if d < 3 then RiskLevel.Critical
    else if d < 7 then RiskLevel.High
    else if d < 14 then RiskLevel.Medium
    else RiskLevel.Low

/-- C2: the risk classifier maps undefined coverage to Low, coverage below 3
to Critical, 3 to 7 to High, 7 to 14 to Medium and at least 14 to Low; in
particular 3.0 is High and 14.0 is Low. -/
theorem assign_risk_level_spec (d : ℚ) :
    assign_risk_level none = RiskLevel.Low ∧
    (d < 3 → assign_risk_level (some d) = RiskLevel.Critical) ∧
    (3 ≤ d → d < 7 → assign_risk_level (some d) = RiskLevel.High) ∧
    (7 ≤ d → d < 14 → assign_risk_level (some d) = RiskLevel.Medium) ∧
    (14 ≤ d → assign_risk_level (some d) = RiskLevel.Low) ∧
    assign_risk_level (some 3) = RiskLevel.High ∧
    assign_risk_level (some 14) = RiskLevel.Low := by
  refine ⟨rfl, ?_, ?_, ?_, ?_, ?_, ?_⟩
  · intro h; simp [assign_risk_level, h]
  · intro h1 h2
    simp [assign_risk_level, h2, not_lt.mpr h1]
  · intro h1 h2
    have h3 : ¬ d < 3 := not_lt.mpr (le_trans (by norm_num) h1)
    simp [assign_risk_level, h2, h3, not_lt.mpr h1]
  · intro h1
    have h3 : ¬ d < 3 := not_lt.mpr (le_trans (by norm_num) h1)
    have h7 : ¬ d < 7 := not_lt.mpr (le_trans (by norm_num) h1)
    have h14 : ¬ d < 14 := not_lt.mpr h1
    simp [assign_risk_level, h3, h7, h14]
  · norm_num [assign_risk_level]
  · norm_num [assign_risk_level]

/-- C2 witness: the classifier theorem applied at coverage 5.0, which lies in
the High band. -/
theorem assign_risk_level_spec_witness :
    assign_risk_level (some 5) = RiskLevel.High :=
  (assign_risk_level_spec 5).2.2.1 (by norm_num) (by norm_num)

/-- Day count of a proleptic Gregorian calendar date, with day 0 at
1970-01-01 (the civil-from-days correspondence used by SQL DATE values). -/
def daysFromCivil (y m d : ℤ) : ℤ :=
  let yAdj : ℤ := if m ≤ 2 then y - 1 else y
  let era : ℤ := (if 0 ≤ yAdj then yAdj else yAdj - 399) / 400
  let yoe : ℤ := yAdj - era * 400
  let mp : ℤ := (m + 9) % 12
  let doy : ℤ := (153 * mp + 2) / 5 + d - 1
  let doe : ℤ := yoe * 365 + yoe / 4 - yoe / 100 + doy
  era * 146097 + doe - 719468

/-- Embedding of DuckDB date_add on DATE values: day ordinals shift by the
integer number of days. -/
def date_add (day : ℤ) (n : ℤ) : ℤ := day + n

/-- Embedding of the estimated_stockout_date CASE expression of risk_sql
(src/app.py lines 1205-1209) and actions_sql (lines 1371-1375):
date_add(reference_date, CEIL(coverage_days)) when coverage is defined,
NULL otherwise. -/
def estimated_stockout_date (reference_date : ℤ) (coverage_days : Option ℚ) : Option ℤ :=
  match coverage_days with
  | some c => some (date_add reference_date ⌈c⌉)
  | none => none

/-- C3: the estimated stockout date is the reference date plus the ceiling of
the coverage days whenever coverage is defined, and undefined otherwise; at
reference date 2024-01-15 a coverage of 10.0 days gives 2024-01-25. -/
theorem estimated_stockout_date_spec (r : ℤ) (c : ℚ) :
    estimated_stockout_date r none = none ∧
    estimated_stockout_date r (some c) = some (r + ⌈c⌉) ∧
    estimated_stockout_date (daysFromCivil 2024 1 15) (some 10) =
      some (daysFromCivil 2024 1 25) := by
  refine ⟨rfl, rfl, ?_⟩
  have h1 : daysFromCivil 2024 1 15 = 19737 := by norm_num [daysFromCivil]
  have h2 : daysFromCivil 2024 1 25 = 19747 := by norm_num [daysFromCivil]
  have h3 : ⌈(10 : ℚ)⌉ = 10 := by norm_num
  simp [estimated_stockout_date, date_add, h1, h2, h3]

/-- Embedding of target_stock in the actions tab (src/app.py line 1381):
pandas round(0) of avg_daily_demand times the total policy days, with the
pandas/numpy ties-to-even rounding. -/
def target_stock (avg_daily_demand : ℚ) (lead_time_days target_cover_days safety_stock_days : ℕ) : ℤ :=
  roundHalfEven (avg_daily_demand * ((lead_time_days : ℚ) + target_cover_days + safety_stock_days))

/-- Embedding of recommended_order_qty (src/app.py lines 1378-1387):
clip target_stock minus onhand at zero, then, when moq is positive, raise
every strictly positive recommendation to at least moq. -/
def recommended_order_qty (onhand_qty : ℤ) (avg_daily_demand : ℚ)
    (lead_time_days target_cover_days safety_stock_days moq : ℕ) : ℤ :=
  let ts := target_stock avg_daily_demand lead_time_days target_cover_days safety_stock_days
  let raw := max (ts - onhand_qty) 0
  if 0 < moq then (if raw ≤ 0 then raw else max raw (moq : ℤ)) else raw

/-- C4: the recommendation is a non-negative integer, is zero whenever onhand
is at least target_stock (even with a positive MOQ), and equals
max(raw_order, moq) whenever the raw order and the MOQ are both positive. -/
theorem recommended_order_qty_spec (onhand : ℤ) (avg : ℚ)
    (lead target safety moq : ℕ) (h1 : 0 ≤ onhand) (h2 : 0 ≤ avg) :
    0 ≤ recommended_order_qty onhand avg lead target safety moq ∧
    (target_stock avg lead target safety ≤ onhand →
      recommended_order_qty onhand avg lead target safety moq = 0) ∧
    (0 < moq → 0 < max (target_stock avg lead target safety - onhand) 0 →
      recommended_order_qty onhand avg lead target safety moq =
        max (max (target_stock avg lead target safety - onhand) 0) (moq : ℤ)) := by
  refine ⟨?_, ?_, ?_⟩
  · rw [recommended_order_qty]
    by_cases hm : 0 < moq
    · simp only [hm, if_true]
      by_cases hr : max (target_stock avg lead target safety - onhand) 0 ≤ 0
      · simp only [hr, if_true]; omega
      · simp only [hr, if_false]; omega
    · simp only [hm, if_false]; omega
  · intro hts
    rw [recommended_order_qty]
    have hraw : max (target_stock avg lead target safety - onhand) 0 = 0 := by omega
    by_cases hm : 0 < moq <;> simp [hm, hraw]
  · intro hm hraw
    rw [recommended_order_qty]
    simp only [hm, if_true]
    rw [if_neg (by omega)]

/-- C4 witness: with onhand 5, constant demand 2 per day and policy
7 + 14 + 3 days, target stock is 48; with MOQ 100 the raw order 43 is raised
to 100, and with onhand 48 the recommendation is zero. -/
theorem recommended_order_qty_spec_witness :
    0 ≤ recommended_order_qty 5 2 7 14 3 100 ∧
    recommended_order_qty 48 2 7 14 3 100 = 0 ∧
    recommended_order_qty 5 2 7 14 3 100 = max (max (target_stock 2 7 14 3 - 5) 0) 100 := by
  have hts : target_stock 2 7 14 3 = 48 := by
    rw [target_stock]
    have h : (2 : ℚ) * ((7 : ℕ) + (14 : ℕ) + (3 : ℕ)) = 48 := by norm_num
    rw [h, roundHalfEven_congr _ 48 (by rw [Int.floor_eq_iff]; norm_num)]
    norm_num
  refine ⟨(recommended_order_qty_spec 5 2 7 14 3 100 (by norm_num) (by norm_num)).1,
    (recommended_order_qty_spec 48 2 7 14 3 100 (by norm_num) (by norm_num)).2.1 (by rw [hts]),
    (recommended_order_qty_spec 5 2 7 14 3 100 (by norm_num) (by norm_num)).2.2
      (by norm_num) (by rw [hts]; norm_num)⟩

/-- Buckets produced by assign_bucket in src/app.py (shortage, adequate,
overstock, and no demand in the window). -/
inductive Bucket
  | Shortage
  | Adequate
  | Overstock
  | NoDemand
deriving DecidableEq

/-- Embedding of assign_bucket from src/app.py (lines 1011-1019): missing
coverage is the no-demand bucket; below the shortage line is Shortage; above
the overstock line is Overstock; otherwise Adequate. -/
def assign_bucket (shortage_days over_days : ℚ) (coverage_days : Option ℚ) : Bucket :=
  match coverage_days with
  | none => Bucket.NoDemand
  | some cd =>
    if cd < shortage_days then Bucket.Shortage
    else if over_days < cd then Bucket.Overstock
    else Bucket.Adequate

/-- Modelled from the spec: the threshold auto-correction of the bucket
invariant. The dashboard file in src/ only offers fixed widget choices for
the two thresholds and carries no correction code, so the rule
(overstock_threshold forced to shortage_threshold + 1 when the invariant
overstock_threshold > shortage_threshold is violated) is taken from the
spec's words. -/
def effective_over_days (shortage_days over_days : ℚ) : ℚ :=
  if shortage_days < over_days then over_days else shortage_days + 1

/-- C5: with the auto-corrected overstock threshold the invariant
overstock > shortage always holds, and the bucket classifier sends undefined
coverage to NoDemand, coverage below the shortage threshold to Shortage,
coverage above the overstock threshold to Overstock, and anything in between
to Adequate. -/
theorem assign_bucket_spec (s o cd : ℚ) :
    s < effective_over_days s o ∧
    assign_bucket s (effective_over_days s o) none = Bucket.NoDemand ∧
    (cd < s → assign_bucket s (effective_over_days s o) (some cd) = Bucket.Shortage) ∧
    (effective_over_days s o < cd →
      assign_bucket s (effective_over_days s o) (some cd) = Bucket.Overstock) ∧
    (s ≤ cd → cd ≤ effective_over_days s o →
      assign_bucket s (effective_over_days s o) (some cd) = Bucket.Adequate) := by
  have hinv : s < effective_over_days s o := by
    rw [effective_over_days]
    by_cases h : s < o
    · simpa [h] using h
    · simp only [h, if_false]; linarith
  refine ⟨hinv, rfl, ?_, ?_, ?_⟩
  · intro h; simp [assign_bucket, h]
  · intro h
    have hns : ¬ cd < s := not_lt.mpr (le_of_lt (lt_trans hinv h))
    simp [assign_bucket, h, hns]
  · intro hs ho
    simp [assign_bucket, not_lt.mpr hs, not_lt.mpr ho]

/-- C5 witness: thresholds 14 and 60 (the defaults, already satisfying the
invariant) with coverage 30.0, which is Adequate; and a violated pair 14, 10
whose corrected overstock threshold is 15. -/
theorem assign_bucket_spec_witness :
    assign_bucket 14 (effective_over_days 14 60) (some 30) = Bucket.Adequate ∧
    effective_over_days 14 10 = 15 ∧ (14 : ℚ) < effective_over_days 14 10 := by
  refine ⟨(assign_bucket_spec 14 60 30).2.2.2.2 (by norm_num) ?_, ?_, (assign_bucket_spec 14 10 0).1⟩
  · rw [effective_over_days, if_pos (by norm_num)]; norm_num
  · rw [effective_over_days, if_neg (by norm_num)]; norm_num

/-- Mean of a list of rationals (pandas Series.mean over the listed values). -/
def listMean (l : List ℚ) : ℚ := l.sum / (l.length : ℚ)

/-- Embedding of the per-SKU body of compute_forecast (src/app.py lines
197-222) for the SeasonalNaive(N) model.  The SKU's demand history inside the
lookback window is the list hist in ascending date order; a SKU with no rows
is skipped (None).  With at least N rows the last N values repeat as a
pattern indexed by (i - 1) mod N for forecast day i; with fewer rows the mean
of the available values is held constant; all values are floored at zero. -/
def forecast_sku (hist : List ℚ) (n horizon_days : ℕ) : Option (List ℚ) :=
  if hist.isEmpty then none
  else
    let last_n := hist.drop (hist.length - n)
    if last_n.length < n then
      some (List.replicate horizon_days (max 0 (listMean last_n)))
    else
      some ((List.range horizon_days).map (fun i => max 0 (last_n.getD (i % n) 0)))

theorem listMean_nonneg (l : List ℚ) (h : ∀ x ∈ l, 0 ≤ x) : 0 ≤ listMean l := by
  rw [listMean]
  apply div_nonneg (List.sum_nonneg h)
  exact_mod_cast Nat.zero_le l.length

/-- C6: with at least N rows of history the seasonal-naive forecast is
exactly the last-N pattern indexed cyclically, and with fewer (but at least
one) rows it is the mean of the available values repeated over the horizon. -/
theorem forecast_sku_spec (hist : List ℚ) (n horizon_days : ℕ)
    (hn : 0 < n) (hpos : ∀ x ∈ hist, 0 ≤ x) :
    (n ≤ hist.length →
      forecast_sku hist n horizon_days =
        some ((List.range horizon_days).map
          (fun i => (hist.drop (hist.length - n)).getD (i % n) 0))) ∧
    (0 < hist.length → hist.length < n →
      forecast_sku hist n horizon_days =
        some (List.replicate horizon_days (listMean hist))) := by
  constructor
  · intro hlen
    have hnil : hist ≠ [] := by
      intro h; rw [h] at hlen; simp at hlen; omega
    have hne : ¬ hist.isEmpty = true := by
      simp [List.isEmpty_iff, hnil]
    have hdrop_len : (hist.drop (hist.length - n)).length = n := by
      rw [List.length_drop]; omega
    simp only [forecast_sku]
    rw [if_neg hne, if_neg (by rw [hdrop_len]; omega)]
    refine congrArg some (List.map_congr_left ?_)
    intro i _
    have hget : 0 ≤ (hist.drop (hist.length - n)).getD (i % n) 0 := by
      rcases hx : (hist.drop (hist.length - n))[i % n]? with _ | x
      · simp [List.getD, hx]
      · have hmem : x ∈ hist.drop (hist.length - n) := List.getElem?_mem hx
        have := hpos x (List.mem_of_mem_drop hmem)
        simp [List.getD, hx, this]
    exact max_eq_right hget
  · intro hpos_len hlt
    have hnil : hist ≠ [] := by
      intro h; rw [h] at hpos_len; simp at hpos_len
    have hne : ¬ hist.isEmpty = true := by
      simp [List.isEmpty_iff, hnil]
    have hdrop : hist.length - n = 0 := by omega
    simp only [forecast_sku]
    rw [if_neg hne, hdrop, List.drop_zero, if_pos hlt]
    have hmax : max 0 (listMean hist) = listMean hist :=
      max_eq_right (listMean_nonneg hist hpos)
    rw [hmax]

/-- C6 witness: history 1, 2, 3 with N = 2 and horizon 3 repeats the pattern
2, 3 cyclically, giving the forecast 2, 3, 2; history 4, 6 with N = 7 falls
back to the constant mean 5. -/
theorem forecast_sku_spec_witness :
    forecast_sku [1, 2, 3] 2 3 = some [2, 3, 2] ∧
    forecast_sku [4, 6] 7 3 = some [5, 5, 5] := by
  have h1 := (forecast_sku_spec [1, 2, 3] 2 3 (by norm_num)
    (by intro x hx; simp at hx; rcases hx with h | h | h <;> rw [h] <;> norm_num)).1 (by simp)
  have h2 := (forecast_sku_spec [4, 6] 7 3 (by norm_num)
    (by intro x hx; simp at hx; rcases hx with h | h <;> rw [h] <;> norm_num)).2
    (by simp) (by simp)
  constructor
  · rw [h1]
    simp [List.range_succ, List.getD]
  · rw [h2]
    have hm : listMean [4, 6] = 5 := by norm_num [listMean]
    rw [hm]
    rfl

/-- Confidence labels produced by the Overview tab (High, Medium, Low, and
the em-dash shown when no MAPE value exists). -/
inductive Confidence
  | High
  | Medium
  | Low
  | NoData
deriving DecidableEq

/-- Embedding of the confidence_hint assignment in src/app.py (lines
680-689): the label is derived from the MAPE value alone, with strict
thresholds at 20 and 40 percent, and the dash label when MAPE is undefined.
The point count returned by the backtest is never consulted. -/
def confidence_hint (mape_pct : Option ℚ) : Confidence :=
  match mape_pct with
  | none => Confidence.NoData
  | some m =>
    if m < 20 then Confidence.High
    else if m < 40 then Confidence.Medium
    else Confidence.Low

/-- Confidence labels as the claim words them, including the
insufficient-data case. -/
inductive SpecConfidence
  | High
  | Medium
  | Low
  | InsufficientData
deriving DecidableEq

/-- The labeling rule exactly as the claim words it (insufficient data below
10 points, then MAPE at most 20 is High and MAPE at most 40 is Medium),
stated for comparison with the code's confidence_hint. -/
def spec_confidence_label (points : ℕ) (mape_pct : ℚ) : SpecConfidence :=
  if points < 10 then SpecConfidence.InsufficientData
  else if mape_pct ≤ 20 then SpecConfidence.High
  else if mape_pct ≤ 40 then SpecConfidence.Medium
  else SpecConfidence.Low

/-- C7 counterexample: at MAPE exactly 20 (with any point count, say 20) the
claim labels High, but the code labels Medium; moreover the code has no
insufficient-data branch, so at 5 points with MAPE 50 the claim says
insufficient data while the code still emits the MAPE-derived label Low. -/
theorem confidence_hint_not_spec :
    confidence_hint (some 20) = Confidence.Medium ∧
    spec_confidence_label 20 20 = SpecConfidence.High ∧
    spec_confidence_label 5 50 = SpecConfidence.InsufficientData ∧
    confidence_hint (some 50) = Confidence.Low := by
  refine ⟨?_, ?_, ?_, ?_⟩
  · rw [confidence_hint]
    rw [if_neg (by norm_num), if_pos (by norm_num)]
  · rw [spec_confidence_label]
    rw [if_neg (by norm_num), if_pos (by norm_num)]
  · rw [spec_confidence_label, if_pos (by norm_num)]
  · rw [confidence_hint]
    rw [if_neg (by norm_num), if_neg (by norm_num)]

/-- C7 (amended): the code labels from MAPE alone with no point-count guard:
an undefined MAPE gives the dash label, MAPE strictly below 20 gives High,
20 to below 40 gives Medium, and 40 or more gives Low. -/
theorem confidence_hint_spec (m : ℚ) :
    confidence_hint none = Confidence.NoData ∧
    (m < 20 → confidence_hint (some m) = Confidence.High) ∧
    (20 ≤ m → m < 40 → confidence_hint (some m) = Confidence.Medium) ∧
    (40 ≤ m → confidence_hint (some m) = Confidence.Low) := by
  refine ⟨rfl, ?_, ?_, ?_⟩
  · intro h; simp [confidence_hint, h]
  · intro h1 h2
    simp [confidence_hint, h2, not_lt.mpr h1]
  · intro h1
    have h20 : ¬ m < 20 := not_lt.mpr (le_trans (by norm_num) h1)
    have h40 : ¬ m < 40 := not_lt.mpr h1
    simp [confidence_hint, h20, h40]

/-- C7 witness: the amended theorem at MAPE 30, which is in the Medium band. -/
theorem confidence_hint_spec_witness :
    confidence_hint (some 30) = Confidence.Medium :=
  (confidence_hint_spec 30).2.2.1 (by norm_num) (by norm_num)

/-- Walk of the forecast rows of one SKU in ascending date order accumulating
a running sum, returning the 0-based row index at which the cumulative
forecast first exceeds the on-hand quantity.  This is the loop of
compute_forecast_metrics in src/app.py (lines 259-274), which takes the first
row whose cumulative sum is strictly greater than onhand. -/
def stockout_scan (onhand : ℚ) (cum : ℚ) (idx : ℕ) : List ℚ → Option ℕ
  | [] => none
  | q :: rest =>
    if onhand < cum + q then some idx else stockout_scan onhand (cum + q) (idx + 1) rest

/-- Index of the first forecast day whose cumulative forecast exceeds onhand. -/
def stockout_idx (qtys : List ℚ) (onhand : ℚ) : Option ℕ :=
  stockout_scan onhand 0 0 qtys

/-- Embedding of stockout_date_forecast from compute_forecast_metrics
(src/app.py lines 259-274): forecast rows are the consecutive days after the
reference date, so row i carries date reference_date + 1 + i; the result is
the date of the first row where the cumulative forecast exceeds onhand, and
None when exhaustion never occurs within the horizon. -/
def stockout_date_forecast (reference_date : ℤ) (qtys : List ℚ) (onhand : ℚ) : Option ℤ :=
  (stockout_idx qtys onhand).map (fun i => reference_date + 1 + (i : ℤ))

theorem stockout_scan_ge (onhand : ℚ) :
    ∀ (qtys : List ℚ) (cum : ℚ) (idx j : ℕ),
      stockout_scan onhand cum idx qtys = some j → idx ≤ j := by
  intro qtys
  induction qtys with
  | nil => intro cum idx j h; simp [stockout_scan] at h
  | cons q rest ih =>
    intro cum idx j h
    by_cases hc : onhand < cum + q
    · rw [stockout_scan, if_pos hc] at h
      have : idx = j := by injection h
      omega
    · rw [stockout_scan, if_neg hc] at h
      have := ih (cum + q) (idx + 1) j h
      omega

theorem stockout_scan_mono (a b : ℚ) (hab : a ≤ b) :
    ∀ (qtys : List ℚ) (cum : ℚ) (idx j : ℕ),
      stockout_scan b cum idx qtys = some j →
      ∃ i, stockout_scan a cum idx qtys = some i ∧ i ≤ j := by
  intro qtys
  induction qtys with
  | nil => intro cum idx j h; simp [stockout_scan] at h
  | cons q rest ih =>
    intro cum idx j h
    by_cases hb : b < cum + q
    · rw [stockout_scan, if_pos hb] at h
      have hj : idx = j := by injection h
      have ha : a < cum + q := lt_of_le_of_lt hab hb
      exact ⟨idx, by rw [stockout_scan, if_pos ha], by omega⟩
    · rw [stockout_scan, if_neg hb] at h
      by_cases ha : a < cum + q
      · have hjge : idx + 1 ≤ j := stockout_scan_ge b rest (cum + q) (idx + 1) j h
        exact ⟨idx, by rw [stockout_scan, if_pos ha], by omega⟩
      · obtain ⟨i, hi, hij⟩ := ih (cum + q) (idx + 1) j h
        exact ⟨i, by rw [stockout_scan, if_neg ha]; exact hi, hij⟩

/-- C8: for a fixed forecast curve, raising the on-hand quantity never moves
the forecast stockout date earlier: whenever the date is defined for the
larger stock b, it is also defined for the smaller stock a and is at least as
early, and an undefined date for b needs no witness since undefined counts as
later than every date. -/
theorem stockout_date_forecast_mono (reference_date : ℤ) (qtys : List ℚ)
    (a b : ℚ) (hab : a ≤ b) (d : ℤ)
    (h : stockout_date_forecast reference_date qtys b = some d) :
    ∃ e, stockout_date_forecast reference_date qtys a = some e ∧ e ≤ d := by
  rw [stockout_date_forecast] at h
  rcases hj : stockout_idx qtys b with _ | j
  · rw [hj] at h; simp at h
  · rw [hj] at h
    have hd : reference_date + 1 + (j : ℤ) = d := by simpa using h
    obtain ⟨i, hi, hij⟩ := stockout_scan_mono a b hab qtys 0 0 j hj
    refine ⟨reference_date + 1 + (i : ℤ), ?_, ?_⟩
    · rw [stockout_date_forecast, stockout_idx, hi]
      rfl
    · rw [← hd]
      have : (i : ℤ) ≤ (j : ℤ) := by exact_mod_cast hij
      omega

/-- C8 witness: curve 5, 5 with on-hand 3 and 7 from reference day 0: the
larger stock runs out on day 2, the smaller on day 1, which is not later. -/
theorem stockout_date_forecast_mono_witness :
    stockout_date_forecast 0 [5, 5] 7 = some 2 ∧
    ∃ e, stockout_date_forecast 0 [5, 5] 3 = some e ∧ e ≤ 2 := by
  have hb : stockout_date_forecast 0 [5, 5] 7 = some 2 := by
    rw [stockout_date_forecast, stockout_idx]
    rw [stockout_scan, if_neg (by norm_num), stockout_scan, if_pos (by norm_num)]
    rfl
  exact ⟨hb, stockout_date_forecast_mono 0 [5, 5] 3 7 (by norm_num) 2 hb⟩

/-- Value of one pandas float64 cell as seen by the priority-score lambda in
src/app.py: a SQL NULL coverage becomes NaN through fetchdf, every other value
is a number.  Numbers are kept as exact rationals; only the NaN structure of
the float semantics matters for the properties proved here. -/
inductive PandasFloat
  | nan
  | val (q : ℚ)
deriving DecidableEq

/-- Python x or y on pandas cell values: NaN is truthy and passes through;
0.0 is falsy and falls back to y; any other number passes through. -/
def pyOr (x y : PandasFloat) : PandasFloat :=
  match x with
  | PandasFloat.nan => PandasFloat.nan
  | PandasFloat.val q => if q = 0 then y else PandasFloat.val q

/-- Python max(a, b) on pandas cell values: the second argument replaces the
first only when it compares strictly greater, and every comparison against
NaN is false, so max(nan, 1) is NaN. -/
def pyMax (a b : PandasFloat) : PandasFloat :=
  match a, b with
  | PandasFloat.val x, PandasFloat.val y =>
      if x < y then PandasFloat.val y else PandasFloat.val x
  | _, _ => a

/-- Python float division on pandas cell values: dividing by 0.0 raises
ZeroDivisionError (None), any operation on NaN yields NaN, and a numeric
quotient is kept exact. -/
def pyDiv (a b : PandasFloat) : Option PandasFloat :=
  match b with
  | PandasFloat.nan => some PandasFloat.nan
  | PandasFloat.val y =>
    if y = 0 then none
    else
      match a with
      | PandasFloat.nan => some PandasFloat.nan
      | PandasFloat.val x => some (PandasFloat.val (x / y))

/-- Denominator of the priority score (src/app.py lines 1225-1227 and
1241-1243): max(coverage_days or 1, 1) in Python semantics, where an
undefined coverage cell is NaN (truthy), so it passes through both the or
and the max unchanged. -/
def priority_denominator (coverage_days : PandasFloat) : PandasFloat :=
  pyMax (pyOr coverage_days (PandasFloat.val 1)) (PandasFloat.val 1)

/-- Embedding of the priority_score lambda from src/app.py (lines 1225-1227,
repeated for the forecast basis at lines 1241-1243):
(demand_7d or 0) / max(coverage_days or 1, 1), with None the
ZeroDivisionError case. -/
def priority_score (demand_7d coverage_days : PandasFloat) : Option PandasFloat :=
  pyDiv (pyOr demand_7d (PandasFloat.val 0)) (priority_denominator coverage_days)

/-- C9 counterexample: for an undefined (NaN) coverage cell the denominator
is NaN, not the claimed 1, because NaN is truthy in Python and survives the
max; the score for demand 5 is then NaN rather than 5. -/
theorem priority_score_not_always_one :
    priority_denominator PandasFloat.nan = PandasFloat.nan ∧
    priority_denominator PandasFloat.nan ≠ PandasFloat.val 1 ∧
    priority_score (PandasFloat.val 5) PandasFloat.nan = some PandasFloat.nan ∧
    priority_score (PandasFloat.val 5) PandasFloat.nan ≠ some (PandasFloat.val 5) := by
  refine ⟨rfl, by decide, ?_, ?_⟩
  · rw [priority_score]
    rw [show pyOr (PandasFloat.val 5) (PandasFloat.val 0) = PandasFloat.val 5 by
      rw [pyOr, if_neg (by norm_num)]]
    rfl
  · rw [priority_score]
    rw [show pyOr (PandasFloat.val 5) (PandasFloat.val 0) = PandasFloat.val 5 by
      rw [pyOr, if_neg (by norm_num)]]
    simp [pyDiv, priority_denominator, pyOr, pyMax]

/-- C9 (amended): for every defined coverage value the denominator is a
number of at least 1 (zero coverage replaced by 1, then clamped below at 1),
while an undefined (NaN) coverage propagates a NaN denominator instead of 1;
in both cases the denominator is never the number zero, so the
priority-score division never raises a division by zero, in particular not
at coverage 0.0 and not at undefined coverage. -/
theorem priority_score_no_div_zero (q : ℚ) (d : PandasFloat) :
    (∃ r : ℚ, priority_denominator (PandasFloat.val q) = PandasFloat.val r ∧ 1 ≤ r) ∧
    priority_denominator (PandasFloat.val 0) = PandasFloat.val 1 ∧
    priority_denominator PandasFloat.nan = PandasFloat.nan ∧
    priority_score d (PandasFloat.val q) ≠ none ∧
    priority_score d PandasFloat.nan ≠ none := by
  have hden : ∃ r : ℚ, priority_denominator (PandasFloat.val q) = PandasFloat.val r ∧ 1 ≤ r := by
    rw [priority_denominator, pyOr]
    by_cases hq : q = 0
    · rw [if_pos hq]
      exact ⟨1, by rw [pyMax, if_neg (by norm_num)], le_refl 1⟩
    · rw [if_neg hq]
      by_cases hq1 : q < 1
      · exact ⟨1, by rw [pyMax, if_pos hq1], le_refl 1⟩
      · exact ⟨q, by rw [pyMax, if_neg hq1], not_lt.mp hq1⟩
  refine ⟨hden, ?_, rfl, ?_, ?_⟩
  · rw [priority_denominator, pyOr, if_pos rfl, pyMax, if_neg (by norm_num)]
  · obtain ⟨r, hr, hr1⟩ := hden
    rw [priority_score, hr]
    have hr0 : r ≠ 0 := by
      intro h0; rw [h0] at hr1; norm_num at hr1
    cases hd : pyOr d (PandasFloat.val 0) with
    | nan => simp [pyDiv, hr0]
    | val x => simp [pyDiv, hr0]
  · rw [priority_score]
    cases hd : pyOr d (PandasFloat.val 0) with
    | nan => simp [pyDiv, priority_denominator, pyOr, pyMax]
    | val x => simp [pyDiv, priority_denominator, pyOr, pyMax]

/-- Prediction of the naive backtest for one (sku, date) point
(src/app.py lines 299-307): the mean of the history rows in the prior window
when any exist, else 0, floored at 0. -/
def backtest_pred (hist : List ℚ) : ℚ :=
  max 0 (if 0 < hist.length then listMean hist else 0)

/-- Per-point absolute percentage error of compute_mape_backtest
(src/app.py lines 299-307): points with non-positive actual demand are
skipped (None); otherwise the error is the absolute gap over the actual. -/
def mape_point (actual : ℚ) (hist : List ℚ) : Option ℚ :=
  if actual ≤ 0 then none
  else some (|actual - backtest_pred hist| / actual)

/-- The error list accumulated by compute_mape_backtest over its
(sku, date) points, each point given as its actual demand and its prior
window history. -/
def mape_errors (points : List (ℚ × List ℚ)) : List ℚ :=
  points.filterMap (fun p => mape_point p.1 p.2)

/-- Aggregate MAPE percentage of compute_mape_backtest (src/app.py lines
308-311): None when no point qualifies, else the mean error times 100. -/
def mape_pct (points : List (ℚ × List ℚ)) : Option ℚ :=
  let errs := mape_errors points
  if errs.isEmpty then none else some (errs.sum / (errs.length : ℚ) * 100)

/-- C10: a point with positive actual demand and an empty prior-window
history predicts 0 and contributes an absolute percentage error of exactly 1
to the error list; appending such a point extends the error list with a 1
rather than discarding the point. -/
theorem mape_point_no_history (actual : ℚ) (points : List (ℚ × List ℚ))
    (h : 0 < actual) :
    mape_point actual [] = some 1 ∧
    mape_errors (points ++ [(actual, [])]) = mape_errors points ++ [1] := by
  have hpred : backtest_pred [] = 0 := by
    rw [backtest_pred]
    norm_num
  have hpoint : mape_point actual [] = some 1 := by
    rw [mape_point, if_neg (not_le.mpr h), hpred, sub_zero,
      abs_of_pos h, div_self (ne_of_gt h)]
  refine ⟨hpoint, ?_⟩
  rw [mape_errors, List.filterMap_append]
  rw [show List.filterMap (fun p => mape_point p.1 p.2) [(actual, [])] = [1] by
    simp [List.filterMap, hpoint]]
  rfl

/-- C10 witness: the theorem at actual demand 5 with no prior points. -/
theorem mape_point_no_history_witness :
    mape_point 5 [] = some 1 ∧
    mape_errors ([] ++ [((5 : ℚ), ([] : List ℚ))]) = mape_errors [] ++ [1] :=
  mape_point_no_history 5 [] (by norm_num)
